import Mathlib

/-!
Verification of the signup-automation core: a shallow embedding of the
pure logic of `automation/form_logic.py`, `automation/agent_orchestrator.py`
(`AIAgentOrchestrator`), and `automation/llm_analyzer.py`
(`LLMPageAnalyzer.get_batch_plan`), together with theorems that settle the
claims about that code.

Conventions used throughout the embedding:
* Python strings are Lean `String`s; Python's `x in s` substring test
  becomes `containsStr s x`.
* Python `str.lower()` is modelled by `asciiLower`, which lowercases the
  ASCII range; every pattern the code searches for is pure ASCII.
* Python dicts that the code only reads through `.get`/iteration become
  association lists; sets and lists become `List`.
* Randomness (`random.choice`, `random.randint`) is modelled by explicit
  parameters: an index chooser `pick : Nat` (used modulo the list length)
  and a digit stream `digits : Nat -> Nat` (used modulo 10).
* Browser / LLM / network effects are abstracted into explicit inputs:
  record fields say what the environment returned (e.g. whether some click
  strategy located the element, what an overlay scan reported).
-/

/-! ## String helpers -/

/-- Lowercase one ASCII character, as Python `str.lower` does on the ASCII
range (all patterns matched by the embedded code are ASCII). -/
def asciiLowerChar (c : Char) : Char :=
  if 'A' ≤ c ∧ c ≤ 'Z' then Char.ofNat (c.toNat + 32) else c

/-- Model of Python `str.lower()` restricted to ASCII case mapping. -/
def asciiLower (s : String) : String :=
  String.mk (s.data.map asciiLowerChar)

/-- Is `pat` a contiguous sublist of the second argument? -/
def listHasSub (pat : List Char) : List Char → Bool
  | [] => pat.isEmpty
  | c :: rest => pat.isPrefixOf (c :: rest) || listHasSub pat rest

/-- Model of Python `pat in hay` (substring containment). -/
def containsStr (hay pat : String) : Bool :=
  listHasSub pat.data hay.data

/-- `any(p in hay for p in pats)`. -/
def anyPatternIn (pats : List String) (hay : String) : Bool :=
  pats.any (fun p => containsStr hay p)

/-- Python word character for `\b` in `re` (ASCII fragment): `[A-Za-z0-9_]`. -/
def isWordChar (c : Char) : Bool :=
  c.isAlphanum || c = '_'

/-- Helper for `re.search(rf"\b{verb}", text)`: does `pat` occur right after
a non-word character somewhere in `text`? -/
def wbAfterBoundary (pat : List Char) : List Char → Bool
  | [] => false
  | c :: rest => (!(isWordChar c) && pat.isPrefixOf rest) || wbAfterBoundary pat rest

/-- Model of `re.search(rf"\b{verb}", text) is not None` for a `verb` that
starts with a word character: the verb occurs at the start of `text` or
right after a non-word character. -/
def wbSearch (pat text : List Char) : Bool :=
  pat.isPrefixOf text || wbAfterBoundary pat text

/-- The two quote characters accepted by the selector regexes (`'` and `"`). -/
def isQuoteChar (c : Char) : Bool :=
  c = Char.ofNat 39 || c = Char.ofNat 34

/-- Scanner for the regex tail `([^'"]+)['"]<close>`: consume one-or-more
non-quote characters, then a quote, then the closing delimiter; return the
captured characters.  Since the body class excludes both quotes, the regex
match at a fixed start position is forced, with no backtracking choice. -/
def scanQuoted (close : Char) : List Char → List Char → Option (List Char)
  | [], _ => none
  | c :: rest, acc =>
    if isQuoteChar c then
      if acc.isEmpty then none
      else
        match rest with
        | d :: _ => if d = close then some acc.reverse else none
        | [] => none
    else scanQuoted close rest (acc ++ [c])

/-- Try to match `<pfx>['"]([^'"]+)['"]<close>` at the start of `l`. -/
def pscanAt (pfx : List Char) (close : Char) (l : List Char) : Option (List Char) :=
  if pfx.isPrefixOf l then
    match l.drop pfx.length with
    | q :: rest => if isQuoteChar q then scanQuoted close rest [] else none
    | [] => none
  else none

/-- Model of `re.search` for the pattern `<pfx>['"]([^'"]+)['"]<close>`:
scan left to right, returning the first (leftmost) capture. -/
def pscan (pfx : List Char) (close : Char) : List Char → Option (List Char)
  | [] => none
  | c :: rest =>
    match pscanAt pfx close (c :: rest) with
    | some r => some r
    | none => pscan pfx close rest

/-! ## form_logic.py -/

/-- `SUBMIT_KEYWORDS` from `form_logic.py`. -/
def formLogicSubmitKeywords : List String :=
  ["submit", "sign up", "signup", "register", "subscribe",
   "join", "send", "continue", "next", "create", "get started"]

/-- The `type_patterns` list of `is_radio_or_checkbox_selector`. -/
def radioCheckboxTypePatterns : List String :=
  ["type=\x27radio\x27",
   "type=\x22radio\x22",
   "type=\x27checkbox\x27",
   "type=\x22checkbox\x22",
   "[type=radio]",
   "[type=checkbox]",
   "input[type=\x27radio\x27]",
   "input[type=\x22radio\x22]",
   "input[type=\x27checkbox\x27]",
   "input[type=\x22checkbox\x22]"]

/-- `form_logic.is_radio_or_checkbox_selector`. -/
def is_radio_or_checkbox_selector (selector : String) : Bool :=
  if selector = "" then false
  else anyPatternIn radioCheckboxTypePatterns (asciiLower selector)

/-- `form_logic.is_submit_action` (the extracted, unit-tested classifier). -/
def is_submit_action (selector reasoning : String) (fields_filled : List String)
    (is_cta_button : Bool) : Bool :=
  if selector = "" then false
  else
    let selectorLower := asciiLower selector
    let reasoningLower := asciiLower reasoning
    let isSubmitKeyword := formLogicSubmitKeywords.any
      (fun kw => containsStr selectorLower kw || containsStr reasoningLower kw)
    let hasFilledFields := decide (0 < fields_filled.length)
    let isRadioCheckbox := is_radio_or_checkbox_selector selector
    hasFilledFields && (isSubmitKeyword || !is_cta_button) && !isRadioCheckbox

/-- `form_logic.validate_selector_exists_in_html`.  The three regex shapes
are modelled by `pscan`; the `#id` shape takes the id up to the first `[`
and then the first `:`, exactly like `selector[1:].split("[")[0].split(":")[0]`. -/
def validate_selector_exists_in_html (selector html : String) : Bool :=
  if selector = "" ∨ html = "" then false
  else
    let htmlLower := asciiLower html
    let selLower := asciiLower selector
    if "#".data.isPrefixOf selector.data then
      let elementId := String.mk
        (((selector.data.drop 1).takeWhile (fun c => c ≠ '[')).takeWhile (fun c => c ≠ ':'))
      containsStr htmlLower ("id=\x22" ++ elementId ++ "\x22") ||
        containsStr htmlLower ("id=\x27" ++ elementId ++ "\x27")
    else
      match pscan ("[name=".data) ']' selLower.data with
      | some nm =>
        containsStr htmlLower ("name=\x22" ++ String.mk nm ++ "\x22") ||
          containsStr htmlLower ("name=\x27" ++ String.mk nm ++ "\x27")
      | none =>
        match pscan ("input[type=".data) ']' selLower.data with
        | some tv =>
          containsStr htmlLower ("type=\x22" ++ String.mk tv ++ "\x22") ||
            containsStr htmlLower ("type=\x27" ++ String.mk tv ++ "\x27")
        | none =>
          match pscan (":has-text(".data) ')' selector.data with
          | some txt => containsStr htmlLower (asciiLower (String.mk txt))
          | none => true

/-- One entry of an LLM-returned action list.  A Python dict entry with its
`action` / `selector` / `reasoning` keys (each defaulting to `""`). -/
structure PlanAction where
  action : String
  selector : String
  reasoning : String
deriving DecidableEq, Repr

/-- `form_logic.validate_llm_actions`: drop non-dict entries (`none` here),
keep `complete` actions, and keep `fill_field`/`click` actions only when the
selector is non-empty and `validate_selector_exists_in_html` accepts it. -/
def validate_llm_actions (actions : List (Option PlanAction)) (html : String) :
    List PlanAction :=
  actions.filterMap (fun entry =>
    match entry with
    | none => none
    | some a =>
      if a.action = "complete" then some a
      else if a.action = "fill_field" ∨ a.action = "click" then
        if a.selector = "" then none
        else if validate_selector_exists_in_html a.selector html then some a
        else none
      else none)

/-! ## AIAgentOrchestrator._execute_click (agent_orchestrator.py) -/

/-- The `submit_keywords` list local to `_execute_click`. -/
def executorSubmitKeywords : List String :=
  ["submit", "sign up", "signup", "register", "join", "continue", "next",
   "create account", "subscribe", "send"]

/-- The `action_verbs` list of the executor's dynamic CTA scoring. -/
def executorActionVerbs : List String :=
  ["try", "get", "start", "begin", "discover", "explore", "learn",
   "see", "watch", "view", "find", "request", "book", "schedule",
   "contact", "connect", "launch", "unlock", "grab", "claim", "access"]

/-- The `urgency_words` list of the executor's dynamic CTA scoring. -/
def executorUrgencyWords : List String :=
  ["now", "today", "free", "instant", "demo", "trial", "more"]

/-- `combined_text = f"{selector_lower} {reasoning_lower}"`. -/
def executorCombinedText (selector reasoning : String) : String :=
  asciiLower selector ++ " " ++ asciiLower reasoning

/-- The executor's CTA score: `+2` per action verb found at a word boundary
(`re.search(rf"\b{verb}", combined)`), `+1` per urgency word found anywhere. -/
def executorCtaScore (selector reasoning : String) : Nat :=
  let combined := executorCombinedText selector reasoning
  executorActionVerbs.foldl
      (fun acc v => if wbSearch v.data combined.data then acc + 2 else acc) 0
    + executorUrgencyWords.foldl
      (fun acc w => if containsStr combined w then acc + 1 else acc) 0

/-- `is_cta = cta_score >= 2` in `_execute_click`. -/
def executorIsCta (selector reasoning : String) : Bool :=
  decide (2 ≤ executorCtaScore selector reasoning)

/-- `is_submit_keyword` in `_execute_click`: some submit keyword occurs in
the lowercased selector or the lowercased reasoning. -/
def executorSubmitKeyword (selector reasoning : String) : Bool :=
  executorSubmitKeywords.any
    (fun kw => containsStr (asciiLower selector) kw || containsStr (asciiLower reasoning) kw)

/-- `is_real_submit = is_submit_keyword and has_filled_fields and not is_cta`
(`agent_orchestrator.py` line 3195).  Note the executor, unlike
`form_logic.is_submit_action`, performs no radio/checkbox exclusion. -/
def executorIsRealSubmit (selector reasoning : String) (fieldsFilled : List String) : Bool :=
  executorSubmitKeyword selector reasoning
    && decide (fieldsFilled ≠ []) && !(executorIsCta selector reasoning)

/-- `is_close_button` in `_execute_click`'s fallthrough: the selector contains
one of the close-button look-alike fragments. -/
def isCloseButtonSelector (selector : String) : Bool :=
  ["×", "close", "dismiss", "x-button", "modal"].any
    (fun x => containsStr (asciiLower selector) x)

/-- The `AgentState` fields that `_execute_click` reads or writes. -/
structure ClickState where
  submitAttempts : Nat
  clickAttemptsAfterFill : Nat
  hallucinationCount : Nat
  formSubmitted : Bool
  urlBeforeSubmit : String
  formCountBeforeSubmit : Nat
deriving DecidableEq, Repr

/-- What the browser environment did during one `_execute_click` call:
the page URL and form count at click time, whether any of the click
strategies (the active-form shortcut and strategies 1-4) located and clicked
an element, and what the blocked-click overlay handler reported. -/
structure ClickEnv where
  pageUrl : String
  formCount : Nat
  strategyHit : Bool
  overlayIsSuccess : Bool
  overlayClosedRetryHit : Bool
deriving DecidableEq, Repr

/-- The dict returned by `_execute_click`, restricted to the keys the agent
loop consumes. -/
structure ClickOutcome where
  success : Bool
  overlaySuccess : Bool
deriving DecidableEq, Repr

/-- Shallow embedding of `AIAgentOrchestrator._execute_click`: state updates
and result.  Browser effects are summarised by `env`; every state mutation of
the source (click-after-fill counter, pre-submit URL/form-count capture,
submit counting, hallucination counting, close-button masking) is explicit. -/
def execute_click_model (selector reasoning : String) (fieldsFilled : List String)
    (st : ClickState) (env : ClickEnv) : ClickState × ClickOutcome :=
  if selector = "" then (st, ⟨false, false⟩)
  else
    let isReal := executorIsRealSubmit selector reasoning fieldsFilled
    let st1 :=
      if fieldsFilled ≠ [] then
        { st with clickAttemptsAfterFill := st.clickAttemptsAfterFill + 1 }
      else st
    let st2 :=
      if isReal then
        { st1 with urlBeforeSubmit := env.pageUrl, formCountBeforeSubmit := env.formCount }
      else st1
    if env.strategyHit then
      if isReal then
        ({ st2 with submitAttempts := st2.submitAttempts + 1, formSubmitted := true },
         ⟨true, false⟩)
      else (st2, ⟨true, false⟩)
    else
      if st2.formSubmitted && decide (0 < st2.submitAttempts) then
        if env.overlayIsSuccess then (st2, ⟨true, true⟩)
        else if env.overlayClosedRetryHit then (st2, ⟨true, false⟩)
        else
          let st3 := { st2 with hallucinationCount := st2.hallucinationCount + 1 }
          if isCloseButtonSelector selector then (st3, ⟨true, false⟩)
          else (st3, ⟨false, false⟩)
      else
        let st3 := { st2 with hallucinationCount := st2.hallucinationCount + 1 }
        if isCloseButtonSelector selector then (st3, ⟨true, false⟩)
        else (st3, ⟨false, false⟩)

/-! ## execute_signup final audit (agent_orchestrator.py lines 824-876) -/

/-- The `AgentState` fields consulted by the final audit of `execute_signup`. -/
structure AgentFinalState where
  success : Bool
  formSubmitted : Bool
  submitAttempts : Nat
  clickAttemptsAfterFill : Nat
  fieldsFilled : List String
  stuckLoopDetected : Bool
deriving DecidableEq, Repr

/-- `has_submit_evidence` from the final audit: the form was marked
submitted, or a submit was attempted, or some click happened after a fill. -/
def hasSubmitEvidence (st : AgentFinalState) : Bool :=
  st.formSubmitted || decide (0 < st.submitAttempts)
    || decide (0 < st.clickAttemptsAfterFill)

/-- The outcome dict of `execute_signup`, restricted to the audited keys. -/
structure SignupOutcome where
  success : Bool
  fieldsFilled : List String
  formSubmitted : Bool
  submitAttempts : Nat
  stuckLoopDetected : Bool
deriving DecidableEq, Repr

/-- Shallow embedding of the final audit of `execute_signup`: the two
sequential downgrades (`final_success` is forced to `False` when there is no
submit evidence, and again when no field was filled) followed by the outcome
construction.  Every early return of `execute_signup` carries
`success: False`, so the audited path is the only source of a successful
outcome. -/
def finalize_outcome (st : AgentFinalState) : SignupOutcome :=
  let finalSuccess1 := if st.success && !(hasSubmitEvidence st) then false else st.success
  let finalSuccess2 :=
    if finalSuccess1 && decide (st.fieldsFilled.length = 0) then false else finalSuccess1
  ⟨finalSuccess2, st.fieldsFilled, st.formSubmitted, st.submitAttempts, st.stuckLoopDetected⟩

/-! ## AIAgentOrchestrator._detect_success_indicator -/

/-- The `strong_success_patterns` list (agent_orchestrator.py lines 2090-2129). -/
def strongSuccessPatterns : List String :=
  ["thank you for signing up",
   "thanks for signing up",
   "thank you for registering",
   "thanks for registering",
   "registration successful",
   "signup successful",
   "sign up successful",
   "successfully registered",
   "successfully signed up",
   "account created",
   "account has been created",
   "welcome! your account",
   "welcome to your account",
   "check your email for confirmation",
   "check your inbox",
   "verification email sent",
   "confirmation email sent",
   "we\x27ve sent you an email",
   "we have sent you an email",
   "please verify your email",
   "please check your email",
   "you\x27re all set",
   "you are all set",
   "you\x27re in!",
   "you are in!",
   "registration complete",
   "signup complete",
   "sign up complete",
   "congratulations! you",
   "welcome aboard",
   "you\x27ve been added",
   "you have been added",
   "subscription confirmed",
   "you\x27re subscribed",
   "you are subscribed",
   "successfully subscribed",
   "thank you for subscribing",
   "thanks for subscribing"]

/-- Weak keywords checked after a URL change (line 2142). -/
def weakKeywordsUrl : List String := ["thank", "success", "confirm", "welcome", "complete"]

/-- Weak keywords checked after form disappearance (line 2151). -/
def weakKeywordsForm : List String := ["thank", "success", "confirm", "welcome"]

/-- The `negative_patterns` list (lines 2258-2273). -/
def negativePatterns : List String :=
  ["error", "failed", "invalid", "required field", "please fill",
   "please enter", "please provide", "must be", "cannot be empty",
   "is required", "try again", "forgot password", "sign in", "log in"]

/-- The `simple_keywords` list (line 2279). -/
def simpleKeywords : List String := ["thank", "success", "confirm", "welcome"]

/-- What the overlay scan of `_detect_success_indicator` reported when it
found a visible overlay. -/
structure OverlayInfo where
  hasCaptcha : Bool
  hasSuccessText : Bool
  hasRecommendation : Bool
  hasIframe : Bool
deriving DecidableEq, Repr

/-- The inputs of `_detect_success_indicator`: the lowercased visible text
(`visible_lower`), the submission-tracking state, the current and pre-submit
URLs, the form counts (`none` models the `page.evaluate` call raising), and
the overlay scan result (`none` models no overlay found or the scan raising). -/
structure SuccessCtx where
  visibleLower : String
  formSubmitted : Bool
  submitAttempts : Nat
  urlBeforeSubmit : String
  currentUrl : String
  formCountBeforeSubmit : Nat
  formCount : Option Nat
  overlay : Option OverlayInfo
  fieldsFilledCount : Nat
deriving DecidableEq, Repr

/-- Which branch of `_detect_success_indicator` produced `is_success=True`. -/
inductive SuccessReason where
  | strong
  | urlChanged
  | formDisappeared
  | overlaySuccess
  | overlayRecommendation
  | simpleKeyword
deriving DecidableEq, Repr

/-- The tail of `_detect_success_indicator` (lines 2257-2291): the negative
veto and the simple-keyword combination.  Returns `some simpleKeyword` only
when a simple keyword is present, no negative pattern is present, the form
was submitted and at least two fields were filled. -/
def detect_success_simple_tail (ctx : SuccessCtx) : Option SuccessReason :=
  let hasNegative := anyPatternIn negativePatterns ctx.visibleLower
  let hasSimpleKeyword := anyPatternIn simpleKeywords ctx.visibleLower
  if hasSimpleKeyword && !hasNegative && ctx.formSubmitted
      && decide (2 ≤ ctx.fieldsFilledCount) then
    some SuccessReason.simpleKeyword
  else none

/-- Shallow embedding of `AIAgentOrchestrator._detect_success_indicator`
(lines 2082-2291), with the overlay JavaScript scan abstracted to its
reported booleans.  The result is `some r` when the source returns
`is_success: True` from the branch tagged `r`, and `none` when it returns
`is_success: False`. -/
def detect_success_indicator (ctx : SuccessCtx) : Option SuccessReason :=
  if anyPatternIn strongSuccessPatterns ctx.visibleLower then some SuccessReason.strong
  else if ctx.formSubmitted && decide (0 < ctx.submitAttempts) then
    if ctx.urlBeforeSubmit ≠ "" ∧ ctx.currentUrl ≠ ctx.urlBeforeSubmit
        ∧ anyPatternIn weakKeywordsUrl ctx.visibleLower then
      some SuccessReason.urlChanged
    else if (match ctx.formCount with
             | some n => decide (0 < ctx.formCountBeforeSubmit) && decide (n = 0)
             | none => false)
            && anyPatternIn weakKeywordsForm ctx.visibleLower then
      some SuccessReason.formDisappeared
    else
      match ctx.overlay with
      | some o =>
        if o.hasCaptcha then detect_success_simple_tail ctx
        else if o.hasSuccessText then some SuccessReason.overlaySuccess
        else if o.hasRecommendation then some SuccessReason.overlayRecommendation
        else detect_success_simple_tail ctx
      | none => detect_success_simple_tail ctx
  else detect_success_simple_tail ctx

/-! ## Stuck-loop guard (execute_signup, lines 687-709) -/

/-- Condition 3 of the guard: `submit_attempts >= 4` and the page URL is the
(non-empty, by Python truthiness) `url_before_submit`. -/
def stuck_submit_condition (submitAttempts : Nat) (urlBeforeSubmit currentUrl : String) : Bool :=
  decide (4 ≤ submitAttempts) && decide (urlBeforeSubmit ≠ "")
    && decide (currentUrl = urlBeforeSubmit)

/-- Shallow embedding of the stuck-loop detection of `execute_signup`:
condition 1 (some page error text seen at least 3 times, from the
`error_messages_seen` counting dict), else condition 2 (the last four
recorded action patterns satisfy `recent[0]==recent[2]` and
`recent[1]==recent[3]`), else condition 3.  Returns whether `stuck_reason`
was set. -/
def stuck_loop_check (errorsSeen : List (String × Nat)) (recentActions : List String)
    (submitAttempts : Nat) (urlBeforeSubmit currentUrl : String) : Bool :=
  if errorsSeen.any (fun p => decide (3 ≤ p.2)) then true
  else if 4 ≤ recentActions.length then
    match recentActions.drop (recentActions.length - 4) with
    | [a, b, c, d] =>
      if a = c ∧ b = d then true
      else stuck_submit_condition submitAttempts urlBeforeSubmit currentUrl
    | _ => stuck_submit_condition submitAttempts urlBeforeSubmit currentUrl
  else stuck_submit_condition submitAttempts urlBeforeSubmit currentUrl

/-! ## Agent loop iteration structure (execute_signup, lines 506-815) -/

/-- One iteration of the `while not complete and current_step <= max_steps`
loop, classified by how it ends:
* `advance` — the iteration runs to the bottom and executes
  `self.state.current_step += 1`;
* `captchaRetry` — one of the two `continue` statements (lines 588 and 749)
  skips the increment; both sit under a `not self.state.captcha_attempted`
  guard and set `captcha_attempted = True` first, so such an iteration
  flips the latch from `False` to `True`;
* `finish` — the iteration leaves the loop (`break` or `return`). -/
inductive LoopIter where
  | advance
  | captchaRetry
  | finish
deriving DecidableEq, Repr

/-- `AgentLoopRun s ca r`: starting at `current_step = s` with
`captcha_attempted = ca`, the iteration sequence `r` is a possible execution
of the main loop of `execute_signup`.  Every iteration requires the loop
guard `s ≤ 30` (`max_steps = 30`); `captcha_attempted` is never reset inside
the loop. -/
inductive AgentLoopRun : Nat → Bool → List LoopIter → Prop where
  | done (s : Nat) (ca : Bool) : AgentLoopRun s ca []
  | advance (s : Nat) (ca : Bool) (r : List LoopIter) (h : s ≤ 30)
      (t : AgentLoopRun (s + 1) ca r) : AgentLoopRun s ca (LoopIter.advance :: r)
  | captchaRetry (s : Nat) (r : List LoopIter) (h : s ≤ 30)
      (t : AgentLoopRun s true r) : AgentLoopRun s false (LoopIter.captchaRetry :: r)
  | finish (s : Nat) (ca : Bool) (h : s ≤ 30) : AgentLoopRun s ca [LoopIter.finish]

/-! ## AIAgentOrchestrator._generate_phone_for_country -/

/-- One entry of the `phone_formats` table: valid prefixes and the count of
random digits appended after the prefix. -/
structure PhoneFormat where
  prefixes : List String
  len : Nat
deriving DecidableEq, Repr

/-- The `"1"` (Canada/US) entry of `phone_formats`. -/
def usPhoneFormat : PhoneFormat :=
  ⟨["201", "202", "203", "204", "205", "206", "207", "208", "209",
    "210", "212", "213", "214", "215", "216", "217", "218", "219",
    "310", "312", "313", "314", "315", "316", "317", "318", "319",
    "404", "405", "406", "407", "408", "409", "410", "412", "413",
    "415", "416", "417", "418", "419", "424", "425"], 7⟩

/-- `phone_formats.get(country_code)` for the literal dict of
`_generate_phone_for_country` (all keys are distinct, so the dict is a
decision chain). -/
def findPhoneFormat (code : String) : Option PhoneFormat :=
  if code = "92" then some ⟨["300", "306"], 7⟩
  else if code = "91" then some
    ⟨["70", "72", "73", "74", "75", "76", "77", "78", "79",
      "80", "81", "82", "83", "84", "85", "86", "87", "88", "89",
      "90", "91", "92", "93", "94", "95", "96", "97", "98", "99"], 8⟩
  else if code = "44" then some
    ⟨["71", "72", "73", "74", "75", "76", "77", "78", "79"], 8⟩
  else if code = "971" then some ⟨["50", "52", "54", "55", "56", "58"], 7⟩
  else if code = "966" then some
    ⟨["50", "53", "54", "55", "56", "57", "58", "59"], 7⟩
  else if code = "1" then some usPhoneFormat
  else if code = "61" then some
    ⟨["400", "401", "402", "403", "404", "405", "406", "407", "408", "409",
      "410", "411", "412", "413", "414", "415", "416", "417", "418", "419",
      "420", "421", "422", "423", "424", "425", "426", "427", "428", "429"], 6⟩
  else if code = "49" then some
    ⟨["151", "152", "153", "155", "156", "157", "159",
      "160", "162", "163", "164", "170", "171", "172", "173", "174",
      "175", "176", "177", "178", "179"], 7⟩
  else if code = "33" then some ⟨["6", "7"], 8⟩
  else none

/-- Python whitespace characters removed by `str.strip()` (ASCII fragment). -/
def isPyWhitespace (c : Char) : Bool :=
  c = ' ' || c = '\t' || c = '\n' || c = '\r' || c = Char.ofNat 11 || c = Char.ofNat 12

/-- `country_code.replace("+", "").strip()`. -/
def cleanCountryCode (cc : String) : String :=
  let noPlus := cc.data.filter (fun c => c ≠ '+')
  String.mk (((noPlus.dropWhile isPyWhitespace).reverse.dropWhile isPyWhitespace).reverse)

/-- The digit characters appended after the prefix: `length` draws from the
digit stream, each reduced modulo 10 (`random.randint(0, 9)`). -/
def phoneDigits (len : Nat) (digits : Nat → Nat) : List Char :=
  (List.range len).map (fun i => Char.ofNat (48 + digits i % 10))

/-- Shallow embedding of `AIAgentOrchestrator._generate_phone_for_country`:
clean the code, look it up (defaulting to the `"1"` format), pick a prefix
(`random.choice` modelled by `pick` modulo the list length) and append the
configured number of random digits. -/
def generate_phone_for_country (cc : String) (pick : Nat) (digits : Nat → Nat) : String :=
  let code := cleanCountryCode cc
  let fi := (findPhoneFormat code).getD usPhoneFormat
  let pfx := fi.prefixes.getD (pick % fi.prefixes.length) ""
  pfx ++ String.mk (phoneDigits fi.len digits)

/-! ## LLMPageAnalyzer.get_batch_plan (llm_analyzer.py, lines 1153-1266) -/

/-- A batch plan as returned by `get_batch_plan`, restricted to the keys the
claims consult (`actions` and the `no_form` flag of the synthetic plans). -/
structure BatchPlan where
  actions : List PlanAction
  noForm : Bool
  reasoning : String
deriving DecidableEq, Repr

/-- `has_fillable_input` before the email-indicator fallback: a textarea or
an input of an explicit text-entry type. -/
def batch_has_fillable_base (htmlLower : String) : Bool :=
  containsStr htmlLower "<textarea" ||
  containsStr htmlLower "type=\x22email\x22" || containsStr htmlLower "type=\x27email\x27" ||
  containsStr htmlLower "type=\x22text\x22" || containsStr htmlLower "type=\x27text\x27" ||
  containsStr htmlLower "type=\x22tel\x22" || containsStr htmlLower "type=\x27tel\x27" ||
  containsStr htmlLower "type=\x22password\x22" || containsStr htmlLower "type=\x27password\x27"

/-- `has_email_indicator`: an email-named input, an email-ish placeholder, or
an `@` together with any placeholder (the `@` is looked up in the original
HTML, the rest in the lowercased HTML, as in the source). -/
def batch_email_indicator (html htmlLower : String) : Bool :=
  containsStr htmlLower "name=\x22email\x22" || containsStr htmlLower "name=\x27email\x27" ||
  containsStr htmlLower "placeholder=\x22email" || containsStr htmlLower "placeholder=\x27email" ||
  containsStr htmlLower "placeholder=\x22your email" ||
  containsStr htmlLower "placeholder=\x22enter email" ||
  containsStr htmlLower "placeholder=\x22e-mail" ||
  (containsStr html "@" && containsStr htmlLower "placeholder=")

/-- `has_usable_elements`: the explicit fillable types, with the
email-indicator fallback applied only when some `<input` is present. -/
def batch_has_usable (html : String) : Bool :=
  let htmlLower := asciiLower html
  let base := batch_has_fillable_base htmlLower
  if !base && containsStr htmlLower "<input" then batch_email_indicator html htmlLower
  else base

/-- `is_search_only`: a search form marker with no email-typed and no
email-named input. -/
def batch_is_search_only (htmlLower : String) : Bool :=
  (containsStr htmlLower "action=\x22/search\x22" || containsStr htmlLower "role=\x22search\x22")
    && !(containsStr htmlLower "type=\x22email\x22" || containsStr htmlLower "type=\x27email\x27")
    && !(containsStr htmlLower "name=\x22email\x22" || containsStr htmlLower "name=\x27email\x27")

/-- `has_email_placeholder`: the word email together with a placeholder
attribute or an `@`. -/
def batch_email_placeholder (html htmlLower : String) : Bool :=
  containsStr htmlLower "email"
    && (containsStr htmlLower "placeholder=" || containsStr html "@")

/-- Shallow embedding of the preflight section of `get_batch_plan` (lines
1157-1229): `some plan` is one of the three synthetic early returns emitted
before any LLM call, `none` means the function proceeds to call the LLM. -/
def get_batch_plan_preflight (html : String) : Option BatchPlan :=
  let htmlLower := asciiLower html
  if !(batch_has_usable html) then
    some ⟨[⟨"complete", "", "No signup form - no fillable input elements found"⟩], true,
          "No fillable form elements detected in HTML (only radio/checkbox/hidden/buttons)"⟩
  else if html.length < 50 then
    some ⟨[⟨"complete", "", "No signup form - page has minimal content"⟩], true,
          "HTML content too minimal"⟩
  else if batch_is_search_only htmlLower && !(batch_email_placeholder html htmlLower) then
    some ⟨[⟨"complete", "", "No signup form - only search form"⟩], true,
          "Page only has search forms"⟩
  else none

/-- The response validation of `get_batch_plan` (lines 1255-1264): drop
non-dict entries and entries whose `action` is not one of `fill_field`,
`click`, `complete`.  No selector validation is performed here. -/
def get_batch_plan_filter (actions : List (Option PlanAction)) : List PlanAction :=
  actions.filterMap (fun entry =>
    match entry with
    | none => none
    | some a =>
      if a.action = "fill_field" ∨ a.action = "click" ∨ a.action = "complete" then some a
      else none)

/-- A hallucinated fill action: its selector names an id that does not occur
in the HTML below. -/
def ghostAction : PlanAction := ⟨"fill_field", "#ghost", "fill the email field"⟩

/-- A simplified HTML snapshot containing a single email input with
`id="email"` (and no element with id `ghost`). -/
def ghostHtml : String := "<form><input id=\x22email\x22 type=\x22email\x22></form>"

/-! ## Helper lemmas -/

theorem list_length_eq_four {α : Type} (l : List α) (h : l.length = 4) :
    ∃ a b c d, l = [a, b, c, d] := by
  match l, h with
  | [a, b, c, d], _ => exact ⟨a, b, c, d, rfl⟩

theorem getD_mod_mem (l : List String) (n : Nat) (h : l ≠ []) :
    l.getD (n % l.length) "" ∈ l := by
  have hlen : 0 < l.length := List.length_pos.mpr h
  have hlt : n % l.length < l.length := Nat.mod_lt _ hlen
  rw [List.getD_eq_getElem l "" hlt]
  exact List.getElem_mem hlt

theorem findPhoneFormat_prefixes_ne_nil (code : String) (fmt : PhoneFormat)
    (h : findPhoneFormat code = some fmt) : fmt.prefixes ≠ [] := by
  unfold findPhoneFormat at h
  repeat' split at h
  all_goals simp_all
  all_goals (cases h; decide)

theorem agent_loop_run_length_le {s : Nat} {ca : Bool} {r : List LoopIter}
    (h : AgentLoopRun s ca r) : r.length ≤ (31 - s) + (if ca then 0 else 1) + 1 := by
  induction h with
  | done s ca => simp
  | advance s ca r hle t ih =>
    simp only [List.length_cons]
    cases ca <;> simp_all <;> omega
  | captchaRetry s r hle t ih =>
    simp only [List.length_cons]
    simp_all
  | finish s ca => simp

theorem agent_loop_run_advance_count {s : Nat} {ca : Bool} {r : List LoopIter}
    (h : AgentLoopRun s ca r) : r.count LoopIter.advance ≤ 31 - s := by
  induction h with
  | done s ca => simp
  | advance s ca r hle t ih =>
    simp only [List.count_cons]
    simp_all
    omega
  | captchaRetry s r hle t ih =>
    simp only [List.count_cons]
    simp_all
  | finish s ca => simp [List.count_cons]

theorem agent_loop_run_latch_count {s : Nat} {ca : Bool} {r : List LoopIter}
    (h : AgentLoopRun s ca r) : r.count LoopIter.captchaRetry ≤ if ca then 0 else 1 := by
  induction h with
  | done s ca => simp
  | advance s ca r hle t ih =>
    simp only [List.count_cons]
    cases ca <;> simp_all
  | captchaRetry s r hle t ih =>
    simp only [List.count_cons]
    simp_all
  | finish s ca => cases ca <;> simp [List.count_cons]

/-! ## Claim theorems -/

/-- C6: for every URL the main loop of `execute_signup` terminates: the loop
guard is `current_step <= max_steps` with `max_steps = 30`, every completed
iteration increments `current_step`, and the only non-incrementing
non-terminal iterations (the CAPTCHA-solved `continue`s) flip the one-shot
`captcha_attempted` latch, so a run from the initial state (`current_step = 1`,
`captcha_attempted = False`) performs at most 30 incrementing iterations, at
most one latch iteration and at most one terminal iteration — at most 32
iterations in all; the loop cannot run forever. -/
theorem agent_loop_terminates (r : List LoopIter) (h : AgentLoopRun 1 false r) :
    r.length ≤ 32 ∧ r.count LoopIter.advance ≤ 30 ∧ r.count LoopIter.captchaRetry ≤ 1 := by
  refine ⟨?_, ?_, ?_⟩
  · have hl := agent_loop_run_length_le h
    simpa using hl
  · have hc := agent_loop_run_advance_count h
    simpa using hc
  · have hc := agent_loop_run_latch_count h
    simpa using hc

/-- Witness for C6: a concrete three-iteration run (one step increment, one
CAPTCHA-retry continue, one terminal break) is a legal loop run and obeys the
bounds. -/
theorem agent_loop_terminates_witness :
    AgentLoopRun 1 false [LoopIter.advance, LoopIter.captchaRetry, LoopIter.finish] ∧
    ([LoopIter.advance, LoopIter.captchaRetry, LoopIter.finish].length ≤ 32 ∧
      [LoopIter.advance, LoopIter.captchaRetry, LoopIter.finish].count LoopIter.advance ≤ 30 ∧
      [LoopIter.advance, LoopIter.captchaRetry, LoopIter.finish].count LoopIter.captchaRetry ≤ 1) := by
  have hrun : AgentLoopRun 1 false [LoopIter.advance, LoopIter.captchaRetry, LoopIter.finish] :=
    AgentLoopRun.advance 1 false _ (by omega)
      (AgentLoopRun.captchaRetry 2 _ (by omega) (AgentLoopRun.finish 2 true (by omega)))
  exact ⟨hrun, agent_loop_terminates _ hrun⟩

/-- C7: `_generate_phone_for_country`, for any country code whose cleaned
form (`+` stripped) is a key of the phone-format table, returns one of the
table's prefixes for that key followed by exactly the configured number of
digit characters; for any code not in the table it produces exactly the
US (`"1"`) format output. -/
theorem generate_phone_respects_country_table (cc : String) (pick : Nat) (digits : Nat → Nat) :
    (∀ fmt, findPhoneFormat (cleanCountryCode cc) = some fmt →
      ∃ p, p ∈ fmt.prefixes ∧
        generate_phone_for_country cc pick digits = p ++ String.mk (phoneDigits fmt.len digits) ∧
        (phoneDigits fmt.len digits).length = fmt.len ∧
        ∀ c ∈ phoneDigits fmt.len digits, c.isDigit = true)
    ∧ (findPhoneFormat (cleanCountryCode cc) = none →
      generate_phone_for_country cc pick digits = generate_phone_for_country "1" pick digits) := by
  constructor
  · intro fmt h
    refine ⟨fmt.prefixes.getD (pick % fmt.prefixes.length) "", ?_, ?_, ?_, ?_⟩
    · exact getD_mod_mem _ _ (findPhoneFormat_prefixes_ne_nil _ _ h)
    · simp only [generate_phone_for_country, h, Option.getD_some]
    · simp [phoneDigits]
    · intro c hc
      simp only [phoneDigits, List.mem_map, List.mem_range] at hc
      obtain ⟨i, _, rfl⟩ := hc
      have h10 : digits i % 10 < 10 := Nat.mod_lt _ (by omega)
      set k := digits i % 10 with hk
      interval_cases k <;> decide
  · intro h
    simp only [generate_phone_for_country, h, Option.getD_none]
    rfl

/-- Witness for C7: instantiated for Pakistan (`"92"`), index 0 and the
all-zero digit stream. -/
theorem generate_phone_respects_country_table_witness :
    ∃ p, p ∈ (PhoneFormat.mk ["300", "306"] 7).prefixes ∧
      generate_phone_for_country "92" 0 (fun _ => 0) =
        p ++ String.mk (phoneDigits (PhoneFormat.mk ["300", "306"] 7).len (fun _ => 0)) ∧
      (phoneDigits (PhoneFormat.mk ["300", "306"] 7).len (fun _ => 0)).length =
        (PhoneFormat.mk ["300", "306"] 7).len ∧
      ∀ c ∈ phoneDigits (PhoneFormat.mk ["300", "306"] 7).len (fun _ => 0), c.isDigit = true :=
  (generate_phone_respects_country_table "92" 0 (fun _ => 0)).1
    (PhoneFormat.mk ["300", "306"] 7) (by decide)

/-- The final audit accepts exactly the states with a speculative success,
submit evidence, and at least one filled field. -/
theorem finalize_success_iff (st : AgentFinalState) :
    (finalize_outcome st).success = true ↔
      (st.success = true ∧ hasSubmitEvidence st = true ∧ ¬(st.fieldsFilled.length = 0)) := by
  simp only [finalize_outcome]
  cases hsucc : st.success <;> cases hev : hasSubmitEvidence st <;>
    by_cases hff : st.fieldsFilled.length = 0 <;> simp_all

/-- C1: if the final audit of `execute_signup` emits an outcome with
`success = true` then the agent state showed submit evidence
(`form_submitted`, or at least one submit attempt, or at least one
click-after-fill) and at least one filled field; and any speculative success
lacking that evidence is downgraded to a failed outcome.  (Every early
return of `execute_signup` carries `success: False`, so the audited path is
the only source of a successful outcome.) -/
theorem signup_success_requires_submission_evidence (st : AgentFinalState) :
    ((finalize_outcome st).success = true →
      (st.formSubmitted = true ∨ 1 ≤ st.submitAttempts ∨ 1 ≤ st.clickAttemptsAfterFill)
        ∧ 1 ≤ st.fieldsFilled.length)
    ∧ (st.success = true → (hasSubmitEvidence st = false ∨ st.fieldsFilled.length = 0) →
      (finalize_outcome st).success = false) := by
  constructor
  · intro h
    obtain ⟨hs, he, hf⟩ := (finalize_success_iff st).mp h
    constructor
    · simp only [hasSubmitEvidence, Bool.or_eq_true, decide_eq_true_eq] at he
      tauto
    · omega
  · intro hs hbad
    cases hfo : (finalize_outcome st).success
    · rfl
    · exfalso
      obtain ⟨_, he, hf⟩ := (finalize_success_iff st).mp hfo
      rcases hbad with hb | hb
      · rw [hb] at he
        exact Bool.false_ne_true he
      · exact hf hb

/-- Witness for C1: a state with a real submit and one filled field passes
the audit and exhibits the required evidence. -/
theorem signup_success_requires_submission_evidence_witness :
    ((AgentFinalState.mk true true 1 0 ["#email"] false).formSubmitted = true ∨
      1 ≤ (AgentFinalState.mk true true 1 0 ["#email"] false).submitAttempts ∨
      1 ≤ (AgentFinalState.mk true true 1 0 ["#email"] false).clickAttemptsAfterFill)
    ∧ 1 ≤ (AgentFinalState.mk true true 1 0 ["#email"] false).fieldsFilled.length :=
  (signup_success_requires_submission_evidence
    (AgentFinalState.mk true true 1 0 ["#email"] false)).1 (by decide)

/-- Condition 3 of the guard, in claim terms: under the run invariant that
the browser URL is never the empty string, the Python truthiness test on
`url_before_submit` collapses into the URL equality. -/
theorem stuck_submit_condition_iff (submitAttempts : Nat) (urlBeforeSubmit currentUrl : String)
    (hcur : currentUrl ≠ "") :
    stuck_submit_condition submitAttempts urlBeforeSubmit currentUrl = true ↔
      (4 ≤ submitAttempts ∧ currentUrl = urlBeforeSubmit) := by
  unfold stuck_submit_condition
  constructor
  · intro h
    simp only [Bool.and_eq_true, decide_eq_true_eq] at h
    exact ⟨h.1.1, h.2⟩
  · rintro ⟨h4, he⟩
    have hub : urlBeforeSubmit ≠ "" := by
      rw [← he]
      exact hcur
    simp [h4, he, hub]

/-- C4: the stuck-loop guard of `execute_signup` fires exactly when (a) some
page error text has been recorded at least 3 times, or (b) the last four
recorded action patterns form a two-pattern loop `a,b,a,b`, or (c) at least
4 submit attempts happened and the current URL equals `url_before_submit`;
it never fires while all three conditions are below these thresholds.  The
hypothesis `currentUrl ≠ ""` records that a browser page URL is never the
empty string (conditions (a)-(c) are checked in the source's order, so the
disjunction is exact). -/
theorem stuck_loop_guard_iff (errorsSeen : List (String × Nat)) (recentActions : List String)
    (submitAttempts : Nat) (urlBeforeSubmit currentUrl : String)
    (hcur : currentUrl ≠ "") :
    stuck_loop_check errorsSeen recentActions submitAttempts urlBeforeSubmit currentUrl = true ↔
      ((∃ p ∈ errorsSeen, 3 ≤ p.2) ∨
       (4 ≤ recentActions.length ∧
         ∃ a b, recentActions.drop (recentActions.length - 4) = [a, b, a, b]) ∨
       (4 ≤ submitAttempts ∧ currentUrl = urlBeforeSubmit)) := by
  unfold stuck_loop_check
  by_cases h1 : errorsSeen.any (fun p => decide (3 ≤ p.2)) = true
  · have hex : ∃ p ∈ errorsSeen, 3 ≤ p.2 := by simpa using h1
    simp only [h1, if_true]
    simp [hex]
  · have hnex : ¬ ∃ p ∈ errorsSeen, 3 ≤ p.2 := by simpa using h1
    simp only [Bool.not_eq_true] at h1
    simp only [h1, Bool.false_eq_true, if_false]
    by_cases h2 : 4 ≤ recentActions.length
    · obtain ⟨a, b, c, d, hl⟩ :=
        list_length_eq_four (recentActions.drop (recentActions.length - 4))
          (by simp only [List.length_drop]; omega)
      simp only [h2, if_true, hl]
      by_cases h3 : a = c ∧ b = d
      · obtain ⟨rfl, rfl⟩ := h3
        simp only [and_self, if_true, true_iff]
        exact Or.inr (Or.inl ⟨trivial, a, b, rfl⟩)
      · simp only [h3, if_false]
      
        rw [stuck_submit_condition_iff _ _ _ hcur]
        constructor
        · intro h
          exact Or.inr (Or.inr h)
        · rintro (h | ⟨_, x, y, hxy⟩ | h)
          · exact absurd h hnex
          · injection hxy with e1 rest1
            injection rest1 with e2 rest2
            injection rest2 with e3 rest3
            injection rest3 with e4 _
            exact absurd ⟨e1.trans e3.symm, e2.trans e4.symm⟩ h3
          · exact h
    · simp only [h2, if_false]
      rw [stuck_submit_condition_iff _ _ _ hcur]
      constructor
      · intro h
        exact Or.inr (Or.inr h)
      · rintro (h | ⟨hlen, _⟩ | h)
        · exact absurd h hnex
        · exact hlen.elim
        · exact h

/-- Witness for C4: with one error message seen three times the guard fires,
and the equivalence certifies condition (a). -/
theorem stuck_loop_guard_iff_witness :
    stuck_loop_check [("invalid phone", 3)] [] 0 "" "https://x" = true ↔
      ((∃ p ∈ [("invalid phone", 3)], 3 ≤ p.2) ∨
       (4 ≤ ([] : List String).length ∧
         ∃ a b, ([] : List String).drop (([] : List String).length - 4) = [a, b, a, b]) ∨
       (4 ≤ 0 ∧ "https://x" = "")) :=
  stuck_loop_guard_iff [("invalid phone", 3)] [] 0 "" "https://x" (by decide)

/-- C9: `validate_selector_exists_in_html` returns `false` whenever the
selector or the HTML is empty, and returns `true` for every non-empty
selector that does not start with `#` and matches none of the `[name='x']`,
`input[type='x']` and `:has-text('x')` regex shapes — regardless of whether
any matching element exists in the HTML: the hallucination filter is
conservative only for the four parsed selector shapes. -/
theorem validate_selector_conservative_fallback (selector html : String) :
    ((selector ≠ "" ∧ html ≠ "" ∧ "#".data.isPrefixOf selector.data = false ∧
      pscan ("[name=".data) ']' (asciiLower selector).data = none ∧
      pscan ("input[type=".data) ']' (asciiLower selector).data = none ∧
      pscan (":has-text(".data) ')' selector.data = none) →
      validate_selector_exists_in_html selector html = true)
    ∧ ((selector = "" ∨ html = "") →
      validate_selector_exists_in_html selector html = false) := by
  constructor
  · rintro ⟨hsel, hhtml, hhash, hname, htype, htext⟩
    unfold validate_selector_exists_in_html
    rw [if_neg (by tauto)]
    rw [if_neg (by simp [hhash])]
    simp only [hname, htype, htext]
  · intro h
    unfold validate_selector_exists_in_html
    rw [if_pos h]

/-- Witness for C9: the class selector `div.foo` is not one of the parsed
shapes, so it passes validation against an HTML snapshot that plainly does
not contain it; and empty inputs are rejected. -/
theorem validate_selector_conservative_fallback_witness :
    validate_selector_exists_in_html "div.foo" "<span></span>" = true ∧
    validate_selector_exists_in_html "" "<span></span>" = false :=
  ⟨(validate_selector_conservative_fallback "div.foo" "<span></span>").1
      (by refine ⟨by decide, by decide, by decide, ?_, ?_, ?_⟩ <;> decide),
    (validate_selector_conservative_fallback "" "<span></span>").2 (Or.inl rfl)⟩

/-- C8: `get_batch_plan` short-circuits before any LLM call — returning a
synthetic plan consisting of a single `complete` action flagged `no_form` —
whenever the simplified HTML has no fillable text-type input and no
email-indicator input, and likewise whenever the HTML is shorter than 50
characters or contains only a search form (the source's
`is_search_only and not has_email_placeholder` test). -/
theorem batch_plan_preflight_synthetic (html : String) :
    ((batch_has_fillable_base (asciiLower html) = false ∧
        batch_email_indicator html (asciiLower html) = false) ∨
      html.length < 50 ∨
      (batch_is_search_only (asciiLower html) = true ∧
        batch_email_placeholder html (asciiLower html) = false)) →
    ∃ p, get_batch_plan_preflight html = some p ∧ p.noForm = true ∧
      ∃ a, p.actions = [a] ∧ a.action = "complete" := by
  intro hcond
  unfold get_batch_plan_preflight
  by_cases husable : batch_has_usable html = true
  · rw [if_neg (by simp [husable])]
    by_cases hlen : html.length < 50
    · rw [if_pos hlen]
      exact ⟨_, rfl, rfl, _, rfl, rfl⟩
    · rw [if_neg hlen]
      have hsearch : (batch_is_search_only (asciiLower html)
          && !(batch_email_placeholder html (asciiLower html))) = true := by
        rcases hcond with ⟨hbase, hind⟩ | hl | ⟨hs, hp⟩
        · exfalso
          unfold batch_has_usable at husable
          simp only [hbase, Bool.not_false, Bool.true_and] at husable
          split at husable
          · rw [hind] at husable
            exact Bool.false_ne_true husable
          · exact Bool.false_ne_true husable
        · exact absurd hl hlen
        · simp [hs, hp]
      rw [if_pos hsearch]
      exact ⟨_, rfl, rfl, _, rfl, rfl⟩
  · rw [if_pos (by simp [Bool.not_eq_true] at husable; simp [husable])]
    exact ⟨_, rfl, rfl, _, rfl, rfl⟩

/-- Witness for C8: HTML with only a radio input (no fillable text-type
input, no email indicator) gets the synthetic single-`complete` `no_form`
plan. -/
theorem batch_plan_preflight_synthetic_witness :
    ∃ p, get_batch_plan_preflight "<input type=\x22radio\x22>" = some p ∧ p.noForm = true ∧
      ∃ a, p.actions = [a] ∧ a.action = "complete" :=
  batch_plan_preflight_synthetic "<input type=\x22radio\x22>"
    (Or.inl ⟨by decide, by decide⟩)

/-- C2 (amended): `_execute_click` increments `submit_attempts` or changes
`form_submitted` exactly when the click located an element and classified as
a real submit, and the executor's classification is
`is_submit_keyword and has_filled_fields and not is_cta`: submit keyword in
selector or reasoning, at least one field filled, not scored as a CTA.  The
executor applies no radio/checkbox exclusion (that check lives only in the
unused `form_logic.is_submit_action` helper). -/
theorem execute_click_submit_tracking (selector reasoning : String)
    (fieldsFilled : List String) (st : ClickState) (env : ClickEnv) :
    (((execute_click_model selector reasoning fieldsFilled st env).1.submitAttempts
          ≠ st.submitAttempts ∨
      (execute_click_model selector reasoning fieldsFilled st env).1.formSubmitted
          ≠ st.formSubmitted) ↔
      (selector ≠ "" ∧ env.strategyHit = true ∧
        executorIsRealSubmit selector reasoning fieldsFilled = true))
    ∧ (executorIsRealSubmit selector reasoning fieldsFilled = true ↔
        (executorSubmitKeyword selector reasoning = true ∧ fieldsFilled ≠ [] ∧
          executorIsCta selector reasoning = false)) := by
  constructor
  · by_cases hsel : selector = ""
    · simp [execute_click_model, hsel]
    · by_cases hhit : env.strategyHit = true
      · by_cases hreal : executorIsRealSubmit selector reasoning fieldsFilled = true
        · have hff : fieldsFilled ≠ [] := by
            unfold executorIsRealSubmit at hreal
            simp only [Bool.and_eq_true, decide_eq_true_eq] at hreal
            exact hreal.1.2
          simp [execute_click_model, hsel, hhit, hreal, hff]
        · by_cases hff : fieldsFilled ≠ [] <;>
            simp [execute_click_model, hsel, hhit, hreal, hff]
      · have hhit2 : env.strategyHit = false := by simpa using hhit
        by_cases hreal : executorIsRealSubmit selector reasoning fieldsFilled = true <;>
          by_cases hff : fieldsFilled ≠ [] <;>
            simp [execute_click_model, hsel, hhit2, hreal, hff] <;>
            split_ifs <;> simp_all
  · unfold executorIsRealSubmit
    simp only [Bool.and_eq_true, decide_eq_true_eq, Bool.not_eq_true']
    tauto

/-- C2 counterexample: a click on an `input[type='checkbox']` selector whose
reasoning mentions submitting, with one field already filled and a zero CTA
score, is classified by the executor as a real submit (and counted: one
located click takes `submit_attempts` from 0 to 1) even though the selector
is radio/checkbox-typed — the extracted `form_logic.is_submit_action`, which
does check condition (iii), would have said `False`. -/
theorem execute_click_radio_checkbox_counterexample :
    is_radio_or_checkbox_selector "input[type=\x27checkbox\x27]" = true ∧
    executorIsRealSubmit "input[type=\x27checkbox\x27]" "submit consent" ["#agree"] = true ∧
    is_submit_action "input[type=\x27checkbox\x27]" "submit consent" ["#agree"] false = false ∧
    (execute_click_model "input[type=\x27checkbox\x27]" "submit consent" ["#agree"]
        (ClickState.mk 0 0 0 false "" 0)
        (ClickEnv.mk "https://u" 1 true false false)).1.submitAttempts = 1 := by
  decide

/-- C10: when every click strategy fails and the selector contains one of
the close-button fragments (×, close, dismiss, x-button, modal),
`_execute_click` increments `hallucination_count` and returns a synthetic
`success=True` — the surrounding `form_submitted and submit_attempts > 0`
condition guards only the overlay handling, not this close-button masking,
so it applies even when no form was submitted and no field was filled. -/
theorem close_button_hallucination_masked (selector reasoning : String)
    (fieldsFilled : List String) (st : ClickState) (env : ClickEnv)
    (hsel : selector ≠ "") (hhit : env.strategyHit = false)
    (hclose : isCloseButtonSelector selector = true)
    (hsub : st.formSubmitted = false) :
    ((execute_click_model selector reasoning fieldsFilled st env).2).success = true ∧
    (execute_click_model selector reasoning fieldsFilled st env).1.hallucinationCount =
      st.hallucinationCount + 1 ∧
    (execute_click_model selector reasoning fieldsFilled st env).1.submitAttempts =
      st.submitAttempts ∧
    (execute_click_model selector reasoning fieldsFilled st env).1.formSubmitted = false := by
  by_cases hreal : executorIsRealSubmit selector reasoning fieldsFilled = true <;>
    by_cases hff : fieldsFilled ≠ [] <;>
      simp [execute_click_model, hsel, hhit, hreal, hff, hsub, hclose]

/-- Witness for C10: a hallucinated `#close-modal` click with nothing filled
and nothing submitted still returns success and bumps the hallucination
counter. -/
theorem close_button_hallucination_masked_witness :
    ((execute_click_model "#close-modal" "dismiss the popup" []
        (ClickState.mk 0 0 0 false "" 0)
        (ClickEnv.mk "https://u" 1 false false false)).2).success = true ∧
    (execute_click_model "#close-modal" "dismiss the popup" []
        (ClickState.mk 0 0 0 false "" 0)
        (ClickEnv.mk "https://u" 1 false false false)).1.hallucinationCount =
      (ClickState.mk 0 0 0 false "" 0).hallucinationCount + 1 ∧
    (execute_click_model "#close-modal" "dismiss the popup" []
        (ClickState.mk 0 0 0 false "" 0)
        (ClickEnv.mk "https://u" 1 false false false)).1.submitAttempts =
      (ClickState.mk 0 0 0 false "" 0).submitAttempts ∧
    (execute_click_model "#close-modal" "dismiss the popup" []
        (ClickState.mk 0 0 0 false "" 0)
        (ClickEnv.mk "https://u" 1 false false false)).1.formSubmitted = false :=
  close_button_hallucination_masked "#close-modal" "dismiss the popup" []
    (ClickState.mk 0 0 0 false "" 0) (ClickEnv.mk "https://u" 1 false false false)
    (by decide) (by decide) (by decide) (by decide)

/-- C3 counterexample: with visible text "error thank" (which contains the
negative pattern "error", the weak keyword "thank" and no strong success
phrase), a submitted form and a URL change since `url_before_submit`,
`_detect_success_indicator` still reports success through the weak
URL-change combination: the negative veto is applied only after (and does
not guard) the URL-change and form-disappearance branches. -/
theorem negative_veto_counterexample :
    detect_success_indicator
        (SuccessCtx.mk "error thank" true 1 "https://a" "https://b" 0 (some 1) none 2) =
      some SuccessReason.urlChanged ∧
    anyPatternIn negativePatterns "error thank" = true ∧
    anyPatternIn strongSuccessPatterns "error thank" = false := by
  decide

/-- C3 (amended): the negative veto guards only the simple-keyword
combination: whenever the visible text contains a negative pattern,
`_detect_success_indicator` never reports success via the simple-keyword
branch (submitted form, at least two filled fields, simple keyword); the
URL-change, form-disappearance and overlay branches are not vetoed. -/
theorem negative_veto_blocks_simple_keyword (ctx : SuccessCtx)
    (hneg : anyPatternIn negativePatterns ctx.visibleLower = true) :
    detect_success_indicator ctx ≠ some SuccessReason.simpleKeyword := by
  have htail : detect_success_simple_tail ctx ≠ some SuccessReason.simpleKeyword := by
    unfold detect_success_simple_tail
    simp [hneg]
  unfold detect_success_indicator
  split_ifs <;> try simp_all
  split <;> (try split_ifs) <;> simp_all

/-- Witness for C3 (amended): on the counterexample context the negative
pattern is present and the simple-keyword branch indeed does not fire. -/
theorem negative_veto_blocks_simple_keyword_witness :
    detect_success_indicator
        (SuccessCtx.mk "error thank" true 1 "https://a" "https://b" 0 (some 1) none 2) ≠
      some SuccessReason.simpleKeyword :=
  negative_veto_blocks_simple_keyword
    (SuccessCtx.mk "error thank" true 1 "https://a" "https://b" 0 (some 1) none 2)
    (by decide)

/-- C5: `get_batch_plan` performs no selector-existence validation on the
LLM's actions — its filter keeps every well-typed action, so a fill action
whose selector names an id absent from the HTML survives into the returned
plan, even though the repository's own `validate_llm_actions` helper
(never called by `get_batch_plan`) would have filtered it out. -/
theorem batch_plan_keeps_hallucinated_selector :
    get_batch_plan_filter [some ghostAction] = [ghostAction] ∧
    validate_selector_exists_in_html ghostAction.selector ghostHtml = false ∧
    validate_llm_actions [some ghostAction] ghostHtml = [] := by
  decide
